import Mathlib

/-!
Shallow embedding of the example code in this repository:

* `doc/source/ray-air/examples/sklearn_example.ipynb` — the notebook code
  cells (`prepare_data`, `train_sklearn`, `predict_sklearn`), plus the two
  further documents appended to that file: a pip requirements manifest and a
  Bazel build manifest of `py_test` targets;
* `doc/source/ray-air/examples/upload_to_wandb.ipynb` — the notebook code
  cells (`get_train_dataset`, `train_model`).

Pandas data frames are modelled column-wise: a data frame is an association
list from column labels to the list of that column's values in row order.
External library calls (`load_breast_cancer`, the shuffle inside
`train_test_split`, `trainer.fit()`, `BatchPredictor.predict`) are inputs:
the embedded functions are parametrised over their results.
-/

/-- A pandas value appearing in the notebooks: a number or a string. -/
inductive Value where
  | num (q : ℚ)
  | str (s : String)
deriving DecidableEq

/-- A pandas data frame, column-wise: label `×` values in row order. -/
abbrev DataFrame (α : Type) := List (String × List α)

/-- The labels of a data frame's columns, in order. -/
def colNames {α : Type} (df : DataFrame α) : List String :=
  df.map Prod.fst

/-- The values of the column labelled `name` (the first such column). -/
def getColumn {α : Type} : DataFrame α → String → Option (List α)
  | [], _ => none
  | c :: rest, name => if c.1 = name then some c.2 else getColumn rest name

/-- Column assignment `df[name] = vals`: overwrite the columns labelled
`name` if any exist, otherwise append a new column on the right. -/
def setColumn {α : Type} (df : DataFrame α) (name : String) (vals : List α) :
    DataFrame α :=
  if name ∈ colNames df then
    df.map (fun c => if c.1 = name then (name, vals) else c)
  else
    df ++ [(name, vals)]

/-- Embedding of `df.drop(name, axis=1)`: remove every column labelled `name`; raises a
`KeyError` when no such column exists. -/
def dropColumnE {α : Type} (df : DataFrame α) (name : String) :
    Except String (DataFrame α) :=
  if name ∈ colNames df then
    Except.ok (df.filter (fun c => decide (c.1 ≠ name)))
  else
    Except.error ("KeyError: " ++ name)

/-- The number of rows of a data frame (`len(df)`): the length of its first
column, `0` for a frame with no columns. -/
def numRows {α : Type} : DataFrame α → ℕ
  | [] => 0
  | c :: _ => c.2.length

/-- Keep the rows at the given indices, in the order the indices are
listed (indices out of range select nothing). -/
def selectRows {α : Type} (df : DataFrame α) (idxs : List ℕ) : DataFrame α :=
  df.map (fun c => (c.1, idxs.filterMap (fun i => c.2.get? i)))

/-- Apply `f` to every entry of the frame, column structure unchanged. -/
def mapFrame {α β : Type} (f : α → β) (df : DataFrame α) : DataFrame β :=
  df.map (fun c => (c.1, c.2.map f))

/-- A Ray dataset, as the notebooks use it: a wrapper around the pandas
frame it was built from. -/
structure Dataset (α : Type) where
  df : DataFrame α
deriving DecidableEq

/-- Embedding of `ray.data.from_pandas`. -/
def from_pandas {α : Type} (df : DataFrame α) : Dataset α :=
  ⟨df⟩

/-- Embedding of `Dataset.map_batches` with `batch_format="pandas"`; the whole dataset is
one batch here, which is unobservable for the element-wise function the
notebook passes. -/
def map_batches {α β : Type} (ds : Dataset α) (f : DataFrame α → DataFrame β) :
    Dataset β :=
  ⟨f ds.df⟩

/-- Embedding of `Dataset.to_pandas(limit=float("inf"))`. -/
def to_pandas {α : Type} (ds : Dataset α) : DataFrame α :=
  ds.df

/-- The output of `sklearn.datasets.load_breast_cancer` (external library):
the frame of feature columns and the label series.  In
`sklearn_example.ipynb` the frame arises as
`pd.DataFrame(data_raw["data"], columns=data_raw["feature_names"])`, in
`upload_to_wandb.ipynb` it is `data_raw["data"]` of `as_frame=True`. -/
structure RawBreastCancer where
  data : DataFrame Value
  target : List Value

/-- Embedding of `(["A", "B"] * math.ceil(num_samples / 2))[:num_samples]`. -/
def abPattern (num_samples : ℕ) : List Value :=
  ((List.replicate ((num_samples + 1) / 2) [Value.str "A", Value.str "B"]).flatten).take
    num_samples

/-- Embedding of `sklearn.model_selection.train_test_split(df, test_size=0.3)` (external
library), parametrised by `perm`, the shuffled row-index order it draws:
the test split takes the first `ceil(0.3 * n)` shuffled indices, the train
split the rest.  Returns `(train_df, test_df)`. -/
def train_test_split {α : Type} (df : DataFrame α) (perm : List ℕ) :
    DataFrame α × DataFrame α :=
  let n_test := (3 * numRows df + 9) / 10
  (selectRows df (perm.drop n_test), selectRows df (perm.take n_test))

/-- Embedding of `prepare_data` of `sklearn_example.ipynb`, parametrised by the loaded
breast-cancer data `raw` and the split's shuffled index order `perm`. -/
def prepare_data (raw : RawBreastCancer) (perm : List ℕ) :
    Except String (Dataset Value × Dataset Value × Dataset Value) :=
  let dataset_df := setColumn raw.data "target" raw.target
  let num_samples := numRows dataset_df
  let dataset_df := setColumn dataset_df "categorical_column" (abPattern num_samples)
  let split := train_test_split dataset_df perm
  let train_df := split.1
  let test_df := split.2
  match dropColumnE test_df "target" with
  | Except.error e => Except.error e
  | Except.ok dropped =>
      Except.ok (from_pandas train_df, from_pandas test_df, from_pandas dropped)


/-- An estimator object constructed by `train_sklearn`:
`RandomForestClassifier()` or `cuMLRandomForestClassifier()`. -/
inductive SkEstimator where
  | randomForestClassifier
  | cuMLRandomForestClassifier
deriving DecidableEq

/-- A `ray.air.preprocessors` preprocessor as constructed in
`train_sklearn`; `chain` models the two-argument `Chain(_, _)` call. -/
inductive Preprocessor where
  | ordinalEncoder (columns : List String)
  | standardScaler (columns : List String)
  | chain (first second : Preprocessor)
deriving DecidableEq

/-- A training checkpoint handle (opaque to the example code). -/
structure Checkpoint where
  id : ℕ
deriving DecidableEq

/-- A `ray.air.result.Result`: the example code reads its `checkpoint`
(in `predict_sklearn`) and its `metrics` (printed by `train_sklearn`). -/
structure Result where
  checkpoint : Checkpoint
  metrics : List (String × ℚ)
deriving DecidableEq

/-- The configuration record the `SklearnTrainer(...)` call builds. -/
structure SklearnTrainer where
  estimator : SkEstimator
  label_column : String
  datasets : List (String × Dataset Value)
  preprocessor : Preprocessor
  cv : ℕ
  scaling_config : List (String × List (String × ℕ))
deriving DecidableEq

/-- The externally observable steps `train_sklearn` performs after its
guard clause, in program order. -/
inductive Effect where
  | dataPrepared
  | trainerConstructed
  | fitRun
  | metricsPrinted
deriving DecidableEq

/-- Embedding of `train_sklearn` of `sklearn_example.ipynb`.  `cuML` is the module-level
`cuMLRandomForestClassifier` binding (`none` when the `cuml` import
failed); `raw` and `perm` feed `prepare_data`; `fit` is the external
`trainer.fit()`.  Returns the ordered effects alongside the normal result
or the raised error. -/
def train_sklearn (cuML : Option Unit) (num_cpus : ℕ) (use_gpu : Bool)
    (raw : RawBreastCancer) (perm : List ℕ) (fit : SklearnTrainer → Result) :
    List Effect × Except String Result :=
  if use_gpu && cuML.isNone then
    ([], Except.error "cuML must be installed for GPU enabled sklearn estimators.")
  else
    match prepare_data raw perm with
    | Except.error e => ([], Except.error e)
    | Except.ok (train_dataset, valid_dataset, _) =>
      let columns_to_scale := ["mean radius", "mean texture"]
      let preprocessor :=
        Preprocessor.chain (Preprocessor.ordinalEncoder ["categorical_column"])
          (Preprocessor.standardScaler columns_to_scale)
      let resources_estimator :=
        if use_gpu then
          ([("CPU", 1), ("GPU", 1)], SkEstimator.cuMLRandomForestClassifier)
        else
          ([("CPU", num_cpus)], SkEstimator.randomForestClassifier)
      let trainer : SklearnTrainer :=
        { estimator := resources_estimator.2
          label_column := "target"
          datasets := [("train", train_dataset), ("valid", valid_dataset)]
          preprocessor := preprocessor
          cv := 5
          scaling_config := [("trainer_resources", resources_estimator.1)] }
      let result := fit trainer
      ([Effect.dataPrepared, Effect.trainerConstructed, Effect.fitRun,
        Effect.metricsPrinted], Except.ok result)

/-- The predictor class passed to `BatchPredictor.from_checkpoint`
(`SklearnPredictor` in the notebook). -/
inductive PredictorClass where
  | sklearnPredictor
deriving DecidableEq

/-- A `ray.air.batch_predictor.BatchPredictor`. -/
structure BatchPredictor where
  checkpoint : Checkpoint
  predictorClass : PredictorClass
deriving DecidableEq

/-- Embedding of `BatchPredictor.from_checkpoint`. -/
def BatchPredictor.from_checkpoint (c : Checkpoint) (cls : PredictorClass) :
    BatchPredictor :=
  ⟨c, cls⟩

/-- The `lambda df: (df > 0.5).astype(int)` mapped over prediction batches:
entry-wise, `1` when the prediction exceeds `0.5`, else `0`. -/
def predLabelBatch (df : DataFrame ℚ) : DataFrame ℚ :=
  mapFrame (fun q => if (0.5 : ℚ) < q then 1 else 0) df

/-- Embedding of `predict_sklearn` of `sklearn_example.ipynb`, parametrised by the
loaded data and split order fed to `prepare_data` and by the external
`BatchPredictor.predict` (whose last argument is `num_gpus_per_worker`).
Returns the printed `predicted_labels` frame, or the raised error. -/
def predict_sklearn (result : Result) (use_gpu : Bool) (raw : RawBreastCancer)
    (perm : List ℕ)
    (predict : BatchPredictor → Dataset Value → ℕ → Dataset ℚ) :
    Except String (DataFrame ℚ) :=
  match prepare_data raw perm with
  | Except.error e => Except.error e
  | Except.ok (_, _, test_dataset) =>
    let batch_predictor :=
      BatchPredictor.from_checkpoint result.checkpoint PredictorClass.sklearnPredictor
    let predicted_labels :=
      to_pandas (map_batches (predict batch_predictor test_dataset
        (if use_gpu then 1 else 0)) predLabelBatch)
    Except.ok predicted_labels

/-- Embedding of `get_train_dataset` of `upload_to_wandb.ipynb`, parametrised by the
loaded breast-cancer data (`load_breast_cancer(as_frame=True)`). -/
def get_train_dataset (raw : RawBreastCancer) : Dataset Value :=
  let df := raw.data
  let df := setColumn df "target" raw.target
  from_pandas df

/-- A Ray Tune callback; the notebook constructs only
`WandbLoggerCallback(project=..., save_checkpoints=True)`. -/
inductive Callback where
  | wandbLoggerCallback (project : String) (save_checkpoints : Bool)
deriving DecidableEq

/-- A `ray.air.config.RunConfig` as used by `train_model`. -/
structure RunConfig where
  callbacks : List Callback
deriving DecidableEq

/-- The configuration record the `XGBoostTrainer(...)` call builds. -/
structure XGBoostTrainer where
  scaling_config : List (String × ℕ)
  params : List (String × String)
  label_column : String
  datasets : List (String × Dataset Value)
  num_boost_round : ℕ
  run_config : RunConfig
deriving DecidableEq

/-- Embedding of `train_model` of `upload_to_wandb.ipynb`; `fit` is the external
`trainer.fit()`. -/
def train_model (train_dataset : Dataset Value) (wandb_project : String)
    (fit : XGBoostTrainer → Result) : Result :=
  let trainer : XGBoostTrainer :=
    { scaling_config := [("num_workers", 2)]
      params := [("tree_method", "auto")]
      label_column := "target"
      datasets := [("train", train_dataset)]
      num_boost_round := 10
      run_config := { callbacks := [Callback.wandbLoggerCallback wandb_project true] } }
  let result := fit trainer
  result

/-- Test whether `path` lies under the directory named by `dir` (the
directory string includes the trailing slash). -/
def pathUnder (dir path : String) : Bool :=
  List.isPrefixOf dir.data path.data

/-- One `py_test(...)` target declaration of the Bazel build manifest
appended to `sklearn_example.ipynb` (tests of the `python/ray/train`
library). -/
structure PyTestTarget where
  name : String
  size : String
  main : Option String
  srcs : List String
  tags : List String
  deps : List String
  args : List String
deriving DecidableEq

/-- All `py_test` target declarations of the build manifest, in file
order (the manifest's final `py_library(name = "train_lib")` declaration
is not a `py_test` target). -/
def py_test_targets : List PyTestTarget :=
  [{ name := "mlflow_fashion_mnist_example", size := "medium",
     main := some "examples/mlflow_fashion_mnist_example.py",
     srcs := ["examples/mlflow_fashion_mnist_example.py"],
     tags := ["team:ml", "exclusive"], deps := [":train_lib"],
     args := ["--smoke-test"] },
   { name := "mlflow_simple_example", size := "medium",
     main := some "examples/mlflow_simple_example.py",
     srcs := ["examples/mlflow_simple_example.py"],
     tags := ["team:ml", "exclusive", "no_main"], deps := [":train_lib"],
     args := [] },
   { name := "tensorflow_quick_start", size := "medium",
     main := some "examples/tensorflow_quick_start.py",
     srcs := ["examples/tensorflow_quick_start.py"],
     tags := ["team:ml", "exclusive"], deps := [":train_lib"], args := [] },
   { name := "torch_quick_start", size := "medium",
     main := some "examples/torch_quick_start.py",
     srcs := ["examples/torch_quick_start.py"],
     tags := ["team:ml", "exclusive"], deps := [":train_lib"], args := [] },
   { name := "torch_tensorboard_profiler_example", size := "small",
     main := some "examples/torch_tensorboard_profiler_example.py",
     srcs := ["examples/torch_tensorboard_profiler_example.py"],
     tags := ["team:ml", "exclusive"], deps := [":train_lib"], args := [] },
   { name := "transformers_example", size := "large",
     main := some "examples/transformers/transformers_example.py",
     srcs := ["examples/transformers/transformers_example.py"],
     tags := ["team:ml", "exclusive", "tune"], deps := [":train_lib"],
     args := ["--model_name_or_path=bert-base-cased", "--task_name=mrpc",
       "--max_length=32", "--per_device_train_batch_size=64",
       "--max_train_steps=2", "--start_local", "--num_workers=2"] },
   { name := "tune_cifar_pytorch_pbt_example", size := "medium",
     main := some "examples/tune_cifar_pytorch_pbt_example.py",
     srcs := ["examples/tune_cifar_pytorch_pbt_example.py"],
     tags := ["team:ml", "exclusive", "pytorch", "tune"], deps := [":train_lib"],
     args := ["--smoke-test"] },
   { name := "tune_linear_dataset_example", size := "medium",
     main := some "examples/tune_linear_dataset_example.py",
     srcs := ["examples/tune_linear_dataset_example.py"],
     tags := ["team:ml", "exclusive", "gpu_only", "tune"], deps := [":train_lib"],
     args := ["--smoke-test", "--use-gpu"] },
   { name := "tune_linear_example", size := "medium",
     main := some "examples/tune_linear_example.py",
     srcs := ["examples/tune_linear_example.py"],
     tags := ["team:ml", "exclusive", "tune"], deps := [":train_lib"],
     args := ["--smoke-test"] },
   { name := "pytorch_pbt_failure", size := "medium", main := none,
     srcs := ["tests/pytorch_pbt_failure.py"],
     tags := ["team:ml", "exlusive", "no_main"], deps := [":train_lib"],
     args := ["--smoke-test"] },
   { name := "test_backend", size := "large", main := none,
     srcs := ["tests/test_backend.py"],
     tags := ["team:ml", "exclusive"], deps := [":train_lib"], args := [] },
   { name := "test_callbacks", size := "medium", main := none,
     srcs := ["tests/test_callbacks.py"],
     tags := ["team:ml", "exclusive"], deps := [":train_lib"], args := [] },
   { name := "test_examples", size := "large", main := none,
     srcs := ["tests/test_examples.py"],
     tags := ["team:ml", "exclusive"], deps := [":train_lib"], args := [] },
   { name := "test_gpu", size := "large", main := none,
     srcs := ["tests/test_gpu.py"],
     tags := ["team:ml", "exclusive", "gpu_only"], deps := [":train_lib"],
     args := [] },
   { name := "test_minimal", size := "small", main := none,
     srcs := ["tests/test_minimal.py"],
     tags := ["team:ml", "exclusive", "minimal"], deps := [":train_lib"],
     args := [] },
   { name := "test_session", size := "small", main := none,
     srcs := ["tests/test_session.py"],
     tags := ["team:ml", "exclusive"], deps := [":train_lib"], args := [] },
   { name := "test_results_preprocessors", size := "small", main := none,
     srcs := ["tests/test_results_preprocessors.py"],
     tags := ["team:ml", "exclusive"], deps := [":train_lib"], args := [] },
   { name := "test_trainer", size := "large", main := none,
     srcs := ["tests/test_trainer.py"],
     tags := ["team:ml", "exclusive"], deps := [":train_lib"], args := [] },
   { name := "test_tune", size := "medium", main := none,
     srcs := ["tests/test_tune.py"],
     tags := ["team:ml", "exclusive", "tune"], deps := [":train_lib"],
     args := [] },
   { name := "test_utils", size := "small", main := none,
     srcs := ["tests/test_utils.py"],
     tags := ["team:ml", "exclusive"], deps := [":train_lib"], args := [] },
   { name := "test_worker_group", size := "medium", main := none,
     srcs := ["tests/test_worker_group.py"],
     tags := ["team:ml", "exclusive"], deps := [":train_lib"], args := [] }]

/-- One entry of the pip requirements manifest appended to
`sklearn_example.ipynb` (`requirements_rllib`-style list).  Environment
markers are kept verbatim except that the quotes around version literals
are dropped. -/
inductive RequirementEntry where
  | requirementsFile (path : String)
  | package (nameWithExtras : String) (constraint : String) (marker : Option String)
deriving DecidableEq

/-- The bare distribution name of a requirement entry (extras such as
`[atari]` stripped), `none` for a `-r` include line. -/
def RequirementEntry.packageName : RequirementEntry → Option String
  | RequirementEntry.requirementsFile _ => none
  | RequirementEntry.package nameWithExtras _ _ =>
      String.mk (nameWithExtras.data.takeWhile (fun ch => ch ≠ '[')) |> some

/-- The requirements manifest, entry by entry in file order (comment lines
omitted). -/
def requirements_manifest : List RequirementEntry :=
  [RequirementEntry.requirementsFile "requirements_dl.txt",
   RequirementEntry.package "autorom[accept-rom-license]" "" none,
   RequirementEntry.package "gym" ">=0.21.0,<0.24.0" (some "python_version >= 3.7"),
   RequirementEntry.package "gym[atari]" "==0.19.0" (some "python_version < 3.7"),
   RequirementEntry.package "kaggle_environments" "==1.7.11" none,
   RequirementEntry.package "mlagents_envs" "==0.28.0" none,
   RequirementEntry.package "pettingzoo" "==1.15.0" (some "python_version >= 3.7"),
   RequirementEntry.package "pymunk" "==6.0.0" none,
   RequirementEntry.package "supersuit" "==3.3.3" (some "python_version >= 3.7"),
   RequirementEntry.package "pybullet" "==3.2.0" none,
   RequirementEntry.package "recsim" "==0.2.4" none,
   RequirementEntry.package "tensorflow_estimator" "==2.9.0" none,
   RequirementEntry.package "open-spiel" "==1.0.2" none,
   RequirementEntry.package "higher" "==0.2.1" none,
   RequirementEntry.package "pyglet" "==1.5.26" none,
   RequirementEntry.package "imageio-ffmpeg" "==0.4.5" none,
   RequirementEntry.package "starlette" "==0.20.1" none,
   RequirementEntry.package "onnx" "==1.9.0" none,
   RequirementEntry.package "onnxruntime" "==1.9.0" none,
   RequirementEntry.package "tf2onnx" "==1.8.5" none]

/-- Tell whether a computation returned normally rather than raising. -/
def exceptOk {ε α : Type} : Except ε α → Bool
  | Except.ok _ => true
  | Except.error _ => false

/-! ## Helper lemmas about the frame operations -/

theorem getColumn_filter_ne {α : Type} (df : DataFrame α) (n c : String)
    (hne : c ≠ n) :
    getColumn (df.filter (fun x => decide (x.1 ≠ n))) c = getColumn df c := by
  induction df with
  | nil => rfl
  | cons p rest ih =>
    rw [List.filter_cons]
    by_cases hp : p.1 = n
    · rw [if_neg (by simp [hp])]
      have hpc : ¬ (p.1 = c) := fun h => hne (h ▸ hp)
      show getColumn (List.filter _ rest) c
        = if p.1 = c then some p.2 else getColumn rest c
      rw [if_neg hpc, ih]
    · rw [if_pos (by simp [hp])]
      show (if p.1 = c then some p.2 else getColumn (List.filter _ rest) c)
        = if p.1 = c then some p.2 else getColumn rest c
      by_cases hpc : p.1 = c
      · rw [if_pos hpc, if_pos hpc]
      · rw [if_neg hpc, if_neg hpc, ih]

theorem getColumn_filter_self {α : Type} (df : DataFrame α) (n : String) :
    getColumn (df.filter (fun x => decide (x.1 ≠ n))) n = none := by
  induction df with
  | nil => rfl
  | cons p rest ih =>
    rw [List.filter_cons]
    by_cases hp : p.1 = n
    · rw [if_neg (by simp [hp])]
      exact ih
    · rw [if_pos (by simp [hp])]
      show (if p.1 = n then some p.2 else getColumn (List.filter _ rest) n) = none
      rw [if_neg hp, ih]

theorem mem_colNames_setColumn_self {α : Type} (df : DataFrame α) (n : String)
    (v : List α) : n ∈ colNames (setColumn df n v) := by
  unfold setColumn
  by_cases h : n ∈ colNames df
  · rw [if_pos h]
    rcases List.mem_map.mp h with ⟨p, hp, hfst⟩
    refine List.mem_map.mpr ⟨(n, v), ?_, rfl⟩
    refine List.mem_map.mpr ⟨p, hp, ?_⟩
    rw [hfst]
    simp
  · rw [if_neg h]
    unfold colNames
    rw [List.map_append]
    exact List.mem_append_right _ (by simp)

theorem mem_colNames_setColumn_of_mem {α : Type} (df : DataFrame α)
    (n c : String) (v : List α) (h : c ∈ colNames df) :
    c ∈ colNames (setColumn df n v) := by
  unfold setColumn
  by_cases hmem : n ∈ colNames df
  · rw [if_pos hmem]
    rcases List.mem_map.mp h with ⟨p, hp, hfst⟩
    by_cases hpn : p.1 = n
    · refine List.mem_map.mpr ⟨(n, v), ?_, by rw [← hfst, hpn]⟩
      exact List.mem_map.mpr ⟨p, hp, by simp [hpn]⟩
    · refine List.mem_map.mpr ⟨p, ?_, hfst⟩
      exact List.mem_map.mpr ⟨p, hp, by simp [hpn]⟩
  · rw [if_neg hmem]
    unfold colNames
    rw [List.map_append]
    exact List.mem_append_left _ h

theorem colNames_selectRows {α : Type} (df : DataFrame α) (idxs : List ℕ) :
    colNames (selectRows df idxs) = colNames df := by
  unfold colNames selectRows
  rw [List.map_map]
  rfl

theorem dropColumnE_of_mem {α : Type} (df : DataFrame α) (n : String)
    (h : n ∈ colNames df) :
    dropColumnE df n = Except.ok (df.filter (fun c => decide (c.1 ≠ n))) := by
  unfold dropColumnE
  rw [if_pos h]

theorem getColumn_mapFrame {α β : Type} (f : α → β) (df : DataFrame α)
    (c : String) :
    getColumn (mapFrame f df) c = (getColumn df c).map (List.map f) := by
  induction df with
  | nil => rfl
  | cons p rest ih =>
    simp only [mapFrame, List.map_cons] at ih ⊢
    show (if p.1 = c then some (p.2.map f) else getColumn (List.map _ rest) c)
      = Option.map (List.map f) (if p.1 = c then some p.2 else getColumn rest c)
    by_cases hp : p.1 = c
    · rw [if_pos hp, if_pos hp]
      rfl
    · rw [if_neg hp, if_neg hp, ih]

theorem prepare_data_ok (raw : RawBreastCancer) (perm : List ℕ) :
    ∃ tr v te, prepare_data raw perm = Except.ok (tr, v, te)
      ∧ te.df = v.df.filter (fun c => decide (c.1 ≠ "target"))
      ∧ "target" ∈ colNames v.df := by
  simp only [prepare_data, train_test_split]
  have hmem :
      "target" ∈ colNames (selectRows
        (setColumn (setColumn raw.data "target" raw.target) "categorical_column"
          (abPattern (numRows (setColumn raw.data "target" raw.target))))
        (perm.take ((3 * numRows (setColumn (setColumn raw.data "target" raw.target)
          "categorical_column"
          (abPattern (numRows (setColumn raw.data "target" raw.target)))) + 9) / 10))) := by
    rw [colNames_selectRows]
    exact mem_colNames_setColumn_of_mem _ _ _ _
      (mem_colNames_setColumn_self _ _ _)
  rw [dropColumnE_of_mem _ _ hmem]
  exact ⟨_, _, _, rfl, rfl, hmem⟩

/-! ## Claim theorems -/

/-- C8: for every loaded breast-cancer data and every random train/test
split, the third dataset returned by `prepare_data` equals the second
(validation) dataset with exactly the `"target"` column removed: the
`"target"` column, present in the validation dataset, is gone, and every
other column is unchanged — the same row values in the same order. -/
theorem prepare_data_test_drops_target (raw : RawBreastCancer) (perm : List ℕ) :
    ∃ tr v te, prepare_data raw perm = Except.ok (tr, v, te)
      ∧ (∀ c, getColumn te.df c =
          if c = "target" then none else getColumn v.df c)
      ∧ "target" ∈ colNames v.df := by
  obtain ⟨tr, v, te, heq, hte, hmem⟩ := prepare_data_ok raw perm
  refine ⟨tr, v, te, heq, ?_, hmem⟩
  intro c
  by_cases hc : c = "target"
  · rw [if_pos hc, hc, hte]
    exact getColumn_filter_self v.df "target"
  · rw [if_neg hc, hte]
    exact getColumn_filter_ne v.df "target" c hc

/-- C1: `train_sklearn` raises an error if and only if it is called with
`use_gpu` true while the module-level `cuMLRandomForestClassifier` binding
is `none`; in that case it raises the guard's `RuntimeError` immediately —
the effect trace is empty, so no data is prepared and no trainer is
constructed on the error path. -/
theorem train_sklearn_guard_iff (cuML : Option Unit) (num_cpus : ℕ)
    (use_gpu : Bool) (raw : RawBreastCancer) (perm : List ℕ)
    (fit : SklearnTrainer → Result) :
    (exceptOk (train_sklearn cuML num_cpus use_gpu raw perm fit).2 = false
        ↔ use_gpu = true ∧ cuML = none)
      ∧ train_sklearn none num_cpus true raw perm fit
          = ([], Except.error
              "cuML must be installed for GPU enabled sklearn estimators.") := by
  have hok : ∀ (cu : Option Unit) (gpu : Bool), (gpu && cu.isNone) = false →
      exceptOk (train_sklearn cu num_cpus gpu raw perm fit).2 = true := by
    intro cu gpu hguard
    obtain ⟨tr, v, te, heq, -, -⟩ := prepare_data_ok raw perm
    unfold train_sklearn
    rw [hguard, if_neg (by simp), heq]
    rfl
  refine ⟨⟨?_, ?_⟩, rfl⟩
  · intro h
    cases use_gpu with
    | false =>
      rw [hok cuML false (by simp)] at h
      cases h
    | true =>
      cases hcu : cuML with
      | none => exact ⟨rfl, rfl⟩
      | some u =>
        rw [hcu, hok (some u) true (by simp)] at h
        cases h
  · rintro ⟨hg, hc⟩
    rw [hg, hc]
    rfl

/-- C2: apart from `train_sklearn`'s GPU guard, the example code raises no
error: for every input, `prepare_data` and `predict_sklearn` return
normally, and `train_sklearn` returns normally whenever `use_gpu` is
false.  (`get_train_dataset` is embedded as a total function — its body
contains no fallible operation at all.) -/
theorem example_code_raises_only_the_gpu_guard
    (raw : RawBreastCancer) (perm : List ℕ) (cuML : Option Unit) (num_cpus : ℕ)
    (fit : SklearnTrainer → Result) (result : Result) (use_gpu : Bool)
    (predict : BatchPredictor → Dataset Value → ℕ → Dataset ℚ) :
    exceptOk (prepare_data raw perm) = true
      ∧ exceptOk (predict_sklearn result use_gpu raw perm predict) = true
      ∧ exceptOk (train_sklearn cuML num_cpus false raw perm fit).2 = true := by
  obtain ⟨tr, v, te, heq, -, -⟩ := prepare_data_ok raw perm
  refine ⟨by rw [heq]; rfl, ?_, ?_⟩
  · unfold predict_sklearn
    rw [heq]
    rfl
  · unfold train_sklearn
    rw [show (false && cuML.isNone) = false by simp, if_neg (by simp), heq]
    rfl

/-- C5: for every train dataset, project name and external `fit`,
`train_model` constructs an `XGBoostTrainer` whose run config registers
exactly one callback — a `WandbLoggerCallback` whose `project` is the
given `wandb_project` and whose `save_checkpoints` is true — and returns
the result of `trainer.fit()` unchanged. -/
theorem train_model_single_wandb_callback (train_dataset : Dataset Value)
    (wandb_project : String) (fit : XGBoostTrainer → Result) :
    ∃ trainer : XGBoostTrainer,
      train_model train_dataset wandb_project fit = fit trainer
        ∧ trainer.run_config.callbacks
            = [Callback.wandbLoggerCallback wandb_project true] :=
  ⟨_, rfl, rfl⟩

/-- C6: `predict_sklearn` performs checkpoint-based batch prediction: its
predictor is built by `BatchPredictor.from_checkpoint` from the result's
`checkpoint` field alone and is applied to the test dataset produced by
`prepare_data`; no other field of the result matters — two results with
the same checkpoint give the same output. -/
theorem predict_sklearn_uses_only_checkpoint (result : Result) (use_gpu : Bool)
    (raw : RawBreastCancer) (perm : List ℕ)
    (predict : BatchPredictor → Dataset Value → ℕ → Dataset ℚ) :
    (∃ tr v te, prepare_data raw perm = Except.ok (tr, v, te)
      ∧ predict_sklearn result use_gpu raw perm predict
          = Except.ok (to_pandas (map_batches
              (predict (BatchPredictor.from_checkpoint result.checkpoint
                  PredictorClass.sklearnPredictor)
                te (if use_gpu then 1 else 0)) predLabelBatch)))
      ∧ (∀ (c : Checkpoint) (m₁ m₂ : List (String × ℚ)),
          predict_sklearn ⟨c, m₁⟩ use_gpu raw perm predict
            = predict_sklearn ⟨c, m₂⟩ use_gpu raw perm predict) := by
  obtain ⟨tr, v, te, heq, -, -⟩ := prepare_data_ok raw perm
  constructor
  · refine ⟨tr, v, te, heq, ?_⟩
    unfold predict_sklearn
    rw [heq]
  · intro c m₁ m₂
    unfold predict_sklearn
    rw [heq]

/-- C9: `get_train_dataset` leaves every column of the loaded
breast-cancer feature frame unchanged and only appends a `"target"`
column equal to the raw label series (the breast-cancer feature names do
not include `"target"`, which is the hypothesis). -/
theorem get_train_dataset_appends_target (raw : RawBreastCancer)
    (h : "target" ∉ colNames raw.data) :
    (get_train_dataset raw).df = raw.data ++ [("target", raw.target)] := by
  show setColumn raw.data "target" raw.target = raw.data ++ [("target", raw.target)]
  unfold setColumn
  rw [if_neg h]

theorem get_train_dataset_appends_target_witness :
    (get_train_dataset ⟨[("mean radius", [Value.num 1])], [Value.num 0]⟩).df
      = [("mean radius", [Value.num 1])] ++ [("target", [Value.num 0])] :=
  get_train_dataset_appends_target
    ⟨[("mean radius", [Value.num 1])], [Value.num 0]⟩ (by decide)

theorem predLabelBatch_all_binary (l : List ℚ) :
    (l.map (fun q => if (0.5 : ℚ) < q then (1 : ℚ) else 0)).all
      (fun q => decide (q = 0 ∨ q = 1)) = true := by
  induction l with
  | nil => rfl
  | cons a l ih =>
    simp only [List.map_cons, List.all_cons, ih, Bool.and_true]
    by_cases h : (0.5 : ℚ) < a
    · rw [if_pos h]
      simp
    · rw [if_neg h]
      simp

/-- C10: the predicted-labels table `predict_sklearn` prints is obtained
from the batch predictor's real-valued prediction frame by replacing each
entry with `1` when it is strictly greater than `0.5` and `0` otherwise;
in particular every entry of every column of the printed table is `0` or
`1`. -/
theorem predict_sklearn_labels_binary (result : Result) (use_gpu : Bool)
    (raw : RawBreastCancer) (perm : List ℕ)
    (predict : BatchPredictor → Dataset Value → ℕ → Dataset ℚ) :
    (∃ tr v te, prepare_data raw perm = Except.ok (tr, v, te)
      ∧ predict_sklearn result use_gpu raw perm predict
          = Except.ok (predLabelBatch (predict
              (BatchPredictor.from_checkpoint result.checkpoint
                PredictorClass.sklearnPredictor) te
              (if use_gpu then 1 else 0)).df))
      ∧ (∀ (df : DataFrame ℚ) (c : String),
          getColumn (predLabelBatch df) c
            = (getColumn df c).map
                (List.map (fun q => if (0.5 : ℚ) < q then 1 else 0)))
      ∧ (∀ (df : DataFrame ℚ) (c : String),
          (((getColumn (predLabelBatch df) c).getD []).all
            (fun q => decide (q = 0 ∨ q = 1))) = true) := by
  have hcol : ∀ (df : DataFrame ℚ) (c : String),
      getColumn (predLabelBatch df) c
        = (getColumn df c).map
            (List.map (fun q => if (0.5 : ℚ) < q then 1 else 0)) := by
    intro df c
    exact getColumn_mapFrame _ df c
  refine ⟨?_, hcol, ?_⟩
  · obtain ⟨tr, v, te, heq, -, -⟩ := prepare_data_ok raw perm
    refine ⟨tr, v, te, heq, ?_⟩
    unfold predict_sklearn
    rw [heq]
    rfl
  · intro df c
    rw [hcol df c]
    cases getColumn df c with
    | none => rfl
    | some l =>
      exact predLabelBatch_all_binary l

/-- C3 (as stated, refuted): not every `py_test` target in the build
manifest has its `srcs` under `examples/` — the target named
`pytorch_pbt_failure` has `srcs` `["tests/pytorch_pbt_failure.py"]`. -/
theorem py_test_targets_not_all_under_examples :
    ((py_test_targets.filter (fun t => t.name == "pytorch_pbt_failure")).map
        (fun t => t.srcs) = [["tests/pytorch_pbt_failure.py"]])
      ∧ py_test_targets.all
          (fun t => t.srcs.all (fun s => pathUnder "examples/" s)) = false := by
  constructor
  · decide
  · decide

/-- C3 (amended): every `py_test` target declaration in the build-test
manifest points at a script under the `examples/` directory or under the
`tests/` directory. -/
theorem py_test_targets_under_examples_or_tests :
    py_test_targets.all (fun t => t.srcs.all
      (fun s => pathUnder "examples/" s || pathUnder "tests/" s)) = true := by
  decide

/-- C4: the build-test manifest wires both example scripts and unit tests
into the runner — it has `py_test` targets whose `srcs` lie under
`examples/` and ones whose `srcs` lie under `tests/` — and every
`py_test` target depends on the `:train_lib` library. -/
theorem py_test_manifest_wiring :
    py_test_targets.any
        (fun t => t.srcs.all (fun s => pathUnder "examples/" s)) = true
      ∧ py_test_targets.any
          (fun t => t.srcs.all (fun s => pathUnder "tests/" s)) = true
      ∧ py_test_targets.all (fun t => t.deps.contains ":train_lib") = true := by
  refine ⟨?_, ?_, ?_⟩ <;> decide

/-- C7: the requirements manifest has dependency entries for `gym`,
`pettingzoo`, `pybullet`, `recsim` and `onnx`. -/
theorem requirements_lists_rl_packages :
    (["gym", "pettingzoo", "pybullet", "recsim", "onnx"]).all
      (fun p =>
        (requirements_manifest.filterMap RequirementEntry.packageName).contains p)
      = true := by
  decide
